import Mathlib

/-!
Verification of the ec4x galaxy generator and pathfinder.

This file gives a shallow embedding of the Rust core
(src/core/src/hex.rs, ship.rs, fleet.rs, system.rs, starmap.rs)
and proves or refutes the frozen claims about it.

Modelling conventions, used uniformly below:
* Rust machine integers are modelled by Nat and Int.  All values handled by
  the program stay far below every relevant width (ids are at most
  (2R+1)^2 with R = player count; costs are at most 3 per lane), so no
  wrap-around is reachable in any state the claims quantify over, and the
  unbounded model agrees with the machine arithmetic there.  The one cast
  that could wrap, the `as usize` inside Hex::to_id, is modelled with
  Int.toNat; the two agree on every in-radius hex, where the value is
  nonnegative, and ids of hexes outside the radius are used nowhere.
* A Rust function that can panic is modelled with Option: none is a panic.
* HashMap and HashSet have no specified iteration order.  Wherever the code
  iterates a map to build a list, the model takes the iteration order as an
  explicit parameter (a permutation function); theorems quantify over all
  permutations, and a concrete run may pick any one, since every
  permutation is a legitimate behaviour of the hash map.  Map lookups and
  membership tests are order independent and are modelled directly.
  Wherever the code scans `systems.values()` with `find` for a coordinate
  match, every reachable state has distinct coordinates across systems, so
  the result does not depend on the scan order.
* Randomness (rand::thread_rng) is modelled by oracle parameters: a
  shuffle function per home system for SliceRandom::shuffle, and a
  function giving the result of rng.gen_range(0..3) for each
  (source, neighbour) pair; each such pair is drawn at most once in a run,
  so a function of the pair captures every possible random sequence.
* petgraph: nodes are created one per add_system call and are identified
  here by the system id (system_id_to_node is a bijection from ids to
  nodes in every state the program, and any claim, reaches: populate is
  the only system producer and never repeats an id).  The edge list of the
  graph is kept verbatim, in insertion order, as a list of records keyed
  by system ids; Graph::contains_edge checks both orientations;
  Graph::add_edge appends unconditionally; neighbors(a) lists the opposite
  endpoints of edges incident to a.
* The while-loops of astar and is_connected are modelled with an explicit
  fuel argument large enough that, as proved below, the loop always ends
  by its own exit condition and never by exhausting fuel.
* The float sort key in populate (`(r as f64).atan2(q as f64)`) is
  modelled by an exact integer comparison realising the mathematical
  atan2 order: compare the half-plane class of the two vectors, then the
  sign of their cross product.  On the integer vectors the code sorts
  (outer-ring hexes, with both coordinates of magnitude at most the ring
  radius) distinct mathematical angles are separated by far more than the
  f64 atan2 rounding error, so the float comparison decides exactly the
  mathematical order, which this comparator decides as well.
* The float home-index formula `round(i as f64 / n as f64 * total as f64)`
  is modelled by rounding the exact rational i*total/n to the nearest
  integer, halves away from zero.  On every run the code makes, total is
  6*n, the rational is the integer 6*i, and both computations agree.
-/

/-! ## Hex (src/core/src/hex.rs) -/

structure Hex where
  q : Int
  r : Int
deriving DecidableEq

def Hex.new (q r : Int) : Hex := ⟨q, r⟩

/-- `Hex::to_id`.  In the source: `(q_shifted * (max_coord + 1) + r_shifted) as usize`
with `max_coord = num_rings * 2`, `q_shifted = q + num_rings`,
`r_shifted = r + num_rings`.  The `as usize` cast is modelled by `Int.toNat`;
for every hex within the radius the value is nonnegative, so the two agree. -/
def Hex.to_id (h : Hex) (num_rings : Nat) : Nat :=
  let maxCoord : Int := (num_rings : Int) * 2
  ((h.q + (num_rings : Int)) * (maxCoord + 1) + (h.r + (num_rings : Int))).toNat

/-- `Hex::distance`: cube distance `(|dq| + |dr| + |dq+dr|) / 2`. -/
def Hex.distance (a b : Hex) : Nat :=
  ((a.q - b.q).natAbs + (a.r - b.r).natAbs + (a.q + a.r - b.q - b.r).natAbs) / 2

/-- The inner loop of `Hex::within_radius` for one `q` offset: `r` runs from
`r1 = max(-radius, -q-radius)` to `r2 = min(radius, -q+radius)` inclusive. -/
def Hex.radiusRow (center : Hex) (radius q : Int) : List Hex :=
  (List.range (min radius (-q + radius) - max (-radius) (-q - radius) + 1).toNat).map
    fun (j : Nat) => Hex.new (center.q + q)
      (center.r + (max (-radius) (-q - radius) + (j : Int)))

/-- `Hex::within_radius`: all hexes with `q ∈ [-radius, radius]` and, for
each `q`, the row of valid `r` values. -/
def Hex.within_radius (center : Hex) (radius : Int) : List Hex :=
  (List.range (2 * radius + 1).toNat).flatMap
    fun (i : Nat) => Hex.radiusRow center radius (-radius + (i : Int))

/-- `Hex::neighbor`: six fixed axial offsets, direction taken mod 6. -/
def Hex.neighbor (h : Hex) (direction : Nat) : Hex :=
  let directions : List (Int × Int) := [(1, 0), (1, -1), (0, -1), (-1, 0), (-1, 1), (0, 1)]
  let d := directions.getD (direction % 6) (0, 0)
  Hex.new (h.q + d.1) (h.r + d.2)

/-! ## Ship and Fleet (src/core/src/ship.rs, fleet.rs) -/

inductive ShipType where
  | Military
  | Spacelift
deriving DecidableEq

structure Ship where
  ship_type : ShipType
  is_crippled : Bool
deriving DecidableEq

def Ship.new (ship_type : ShipType) (is_crippled : Bool) : Ship :=
  ⟨ship_type, is_crippled⟩

/-- `Ship::can_cross_restricted_lane`. -/
def Ship.can_cross_restricted_lane (s : Ship) : Bool :=
  match s.ship_type with
  | ShipType.Military => !s.is_crippled
  | ShipType.Spacelift => false

inductive LaneType where
  | Major
  | Minor
  | Restricted
deriving DecidableEq

/-- `LaneType::weight`. -/
def LaneType.weight : LaneType → Nat
  | LaneType.Major => 1
  | LaneType.Minor => 2
  | LaneType.Restricted => 3

structure Fleet where
  ships : List Ship
deriving DecidableEq

/-- `Fleet::can_traverse`: Restricted needs every ship to pass; all else passes. -/
def Fleet.can_traverse (f : Fleet) (lane_type : LaneType) : Bool :=
  match lane_type with
  | LaneType.Restricted => f.ships.all fun ship => ship.can_cross_restricted_lane
  | _ => true

/-! ## System (src/core/src/system.rs) -/

structure System where
  id : Nat
  coords : Hex
  ring : Nat
  player : Option Nat
deriving DecidableEq

/-- `System::new`: the id is derived from the coordinates and the radius. -/
def System.new (coords : Hex) (ring : Nat) (num_rings : Nat) (player : Option Nat) : System :=
  ⟨coords.to_id num_rings, coords, ring, player⟩

/-! ## StarMap data (src/core/src/starmap.rs) -/

structure JumpLane where
  source : Nat
  destination : Nat
  lane_type : LaneType
deriving DecidableEq

/-- The aggregate.  `systems` models the id-keyed HashMap (entries listed in
insertion order; keys are the `id` fields).  `graph` is the petgraph edge
list in insertion order, endpoints named by system id; `nodeIds` is the key
set of `system_id_to_node`, one entry per add_system call. -/
structure StarMap where
  systems : List System
  lanes : List JumpLane
  graph : List JumpLane
  nodeIds : List Nat
  player_count : Nat
  num_rings : Nat
  hub_id : Nat
deriving DecidableEq

/-- `StarMap::new`. -/
def StarMap.new (player_count : Nat) : StarMap :=
  { systems := [], lanes := [], graph := [], nodeIds := []
    player_count := player_count, num_rings := player_count, hub_id := 0 }

/-- HashMap::insert keyed by the id: replace the entry with this id if one
exists, otherwise add the entry. -/
def insertSystem (l : List System) (s : System) : List System :=
  if l.any fun t => t.id = s.id then
    l.map fun t => if t.id = s.id then s else t
  else l ++ [s]

/-- `StarMap::add_system`: store the system and create a graph node for it. -/
def StarMap.add_system (m : StarMap) (system : System) : StarMap :=
  { m with systems := insertSystem m.systems system
           nodeIds := m.nodeIds ++ [system.id] }

/-- `Graph::contains_edge` on an undirected graph: either orientation. -/
def containsEdge (g : List JumpLane) (a b : Nat) : Bool :=
  g.any fun e => (e.source = a && e.destination = b) || (e.source = b && e.destination = a)

/-- `Graph::neighbors`: opposite endpoints of the edges incident to `id`. -/
def neighborsOf (g : List JumpLane) (id : Nat) : List Nat :=
  g.filterMap fun e =>
    if e.source = id then some e.destination
    else if e.destination = id then some e.source
    else none

/-- `StarMap::add_lane`: look both endpoints up in `system_id_to_node`
(panic if absent), then add the edge and the record unless an edge between
the pair already exists. -/
def StarMap.add_lane (m : StarMap) (source destination : Nat) (lane_type : LaneType) :
    Option StarMap :=
  if source ∈ m.nodeIds then
    if destination ∈ m.nodeIds then
      if containsEdge m.graph source destination then some m
      else some { m with
        graph := m.graph ++ [⟨source, destination, lane_type⟩]
        lanes := m.lanes ++ [⟨source, destination, lane_type⟩] }
    else none
  else none

/-- HashMap::get on the systems map. -/
def StarMap.getSystem (m : StarMap) (id : Nat) : Option System :=
  m.systems.find? fun s => s.id = id

/-- `systems.values().find(|s| s.coords == c)`. -/
def StarMap.findByCoords (m : StarMap) (c : Hex) : Option System :=
  m.systems.find? fun s => s.coords = c

/-- `StarMap::count_adjacent`: how many of the six neighbours of `hex` are
occupied by a system. -/
def StarMap.count_adjacent (m : StarMap) (hex : Hex) : Nat :=
  ((List.range 6).filter fun dir =>
    m.systems.any fun s => s.coords = hex.neighbor dir).length

/-! ## The angular sort in populate

The source sorts the outer-ring hexes by `(r as f64).atan2(q as f64)` in
ascending order.  atan2 returns a value in (-pi, pi]; we classify each
vector by the four regions of that range that are separable by sign tests
(lower half plane, positive real axis, upper half plane, negative real
axis) and compare vectors inside one open half plane by the sign of their
cross product, which decides the mathematical angle order exactly there.
On the vectors actually sorted (distinct hexes of one ring, coordinates
bounded by the ring radius) distinct mathematical angles differ by far
more than the f64 rounding error, so this comparator and the float one
induce the same sorted list. -/

def angleClass (h : Hex) : Nat :=
  if h.r < 0 then 0
  else if h.r = 0 ∧ 0 < h.q then 1
  else if 0 < h.r then 2
  else 3

def cross (a b : Hex) : Int := a.q * b.r - a.r * b.q

def angleLt (a b : Hex) : Prop :=
  angleClass a < angleClass b ∨ (angleClass a = angleClass b ∧ 0 < cross a b)

instance : DecidableRel angleLt := fun a b => by
  unfold angleLt; infer_instance

def angleLe (a b : Hex) : Prop := ¬ angleLt b a

instance : DecidableRel angleLe := fun a b => by
  unfold angleLe; infer_instance

def sortByAngle (l : List Hex) : List Hex := List.insertionSort angleLe l

/-! ## populate (src/core/src/starmap.rs) -/

/-- Rounding of the exact rational `i * total / player_count` to the nearest
integer, halves away from zero (the behaviour of f64 `round` on the
nonnegative values that occur); models
`(i as f64 / player_count as f64 * total_hexes as f64).round() as usize`. -/
def roundHomeIndex (i player_count total : Nat) : Nat :=
  (2 * i * total + player_count) / (2 * player_count)

/-- `systems.get_mut(&id).expect(..).player = Some(i)`: none models the
panic when the id is absent.  Ids are never duplicated in any reachable
map, so updating every entry with this id equals updating the entry. -/
def setPlayer (l : List System) (id : Nat) (i : Nat) : Option (List System) :=
  if l.any fun s => s.id = id then
    some (l.map fun s => if s.id = id then { s with player := some i } else s)
  else none

/-- The first block of `StarMap::populate`: create the hub system, record
its id, then create one system per non-center hex within the radius, with
ring = distance from the center. -/
def StarMap.populateSystems (m : StarMap) : StarMap :=
  let center := Hex.new 0 0
  let hub := System.new center 0 m.num_rings none
  let m1 := StarMap.add_system { m with hub_id := hub.id } hub
  (Hex.within_radius center (m.num_rings : Int)).foldl (fun acc hex =>
      if hex = center then acc
      else acc.add_system (System.new hex (hex.distance center) m.num_rings none)) m1

/-- The outer-ring hexes of `populate`, already sorted by angle; `perm` is
the hash map iteration order in which they were collected. -/
def StarMap.sortedOuterHexes (m2 : StarMap) (perm : List Hex → List Hex) : List Hex :=
  sortByAngle (perm ((m2.systems.filter fun s => decide (s.ring = m2.num_rings)).map
    fun s => s.coords))

/-- The outer-ring hexes with exactly three occupied neighbours. -/
def StarMap.vertexHexes (m2 : StarMap) (perm : List Hex → List Hex) : List Hex :=
  (m2.sortedOuterHexes perm).filter fun hex => decide (m2.count_adjacent hex = 3)

/-- The home-selection block of `populate`.  The two `getD` reads are only
reached with an in-bounds index, so the center default is never produced;
the `total = 0` and `vertex.length = 0` branches model the out-of-bounds
indexing / modulo-zero panics. -/
def StarMap.homeHexes (m2 : StarMap) (perm : List Hex → List Hex) : Option (List Hex) :=
  if m2.player_count ≤ 6 ∧ (m2.vertexHexes perm).length < m2.player_count then none
  else (List.range m2.player_count).mapM fun i =>
    if (m2.sortedOuterHexes perm).length = 0 then none
    else
      if m2.player_count ≤ 6 then
        if (m2.vertexHexes perm).length = 0 then none
        else some ((m2.vertexHexes perm).getD (i % (m2.vertexHexes perm).length) (Hex.new 0 0))
      else some ((m2.sortedOuterHexes perm).getD
        ((roundHomeIndex i m2.player_count (m2.sortedOuterHexes perm).length
            % (m2.sortedOuterHexes perm).length)
          % (m2.sortedOuterHexes perm).length) (Hex.new 0 0))

/-- `StarMap::populate`, assembled from its blocks: build the systems,
select the home hexes, then set `player = Some(i)` on each; `perm` is the
hash map iteration order of the outer-ring scan. -/
def StarMap.populate (m : StarMap) (perm : List Hex → List Hex) : Option StarMap :=
  match m.populateSystems.homeHexes perm with
  | none => none
  | some home_hexes =>
    match home_hexes.enum.foldlM
        (fun sys (p : Nat × Hex) => setPlayer sys (p.2.to_id m.populateSystems.num_rings) p.1)
        m.populateSystems.systems with
    | none => none
    | some sys => some { m.populateSystems with systems := sys }

/-- The sources of nondeterminism in `generate_lanes`: the iteration orders
of the four `self.systems.iter()` scans (hash map order), the
`SliceRandom::shuffle` of each home system's candidate list, and the
`rng.gen_range(0..3)` drawn for each (source, neighbour) pair.  Every pair
is drawn at most once per run, so a function of the pair captures every
possible random sequence. -/
structure GenOracle where
  permHub : List Nat → List Nat
  permPlayers : List Nat → List Nat
  permOuter : List Nat → List Nat
  permInner : List Nat → List Nat
  shuffle : Nat → List Nat → List Nat
  laneRoll : Nat → Nat → Nat

/-- `match rng.gen_range(0..3) { 0 => Major, 1 => Minor, _ => Restricted }`. -/
def laneOfRoll (n : Nat) : LaneType :=
  if n = 0 then LaneType.Major else if n = 1 then LaneType.Minor else LaneType.Restricted

/-- `StarMap::connect_hub`. -/
def StarMap.connect_hub (m : StarMap) (permHub : List Nat → List Nat) : Option StarMap :=
  match m.getSystem m.hub_id with
  | none => none
  | some hub =>
    let neighbor_ids := permHub ((m.systems.filter fun s =>
        decide (s.ring = 1 ∧ s.coords.distance hub.coords = 1)).map fun s => s.id)
    if neighbor_ids.length ≠ 6 then none
    else neighbor_ids.foldlM (fun acc nid => acc.add_lane m.hub_id nid LaneType.Major) m

/-- `StarMap::connect_player_system`.  `neighbor_ids.sort()` sorts the ids
ascending; insertion sort yields the same list (the unique sorted
permutation of a Nat list). -/
def StarMap.connect_player_system (m : StarMap) (id : Nat) (shuffle : List Nat → List Nat) :
    Option StarMap :=
  match m.getSystem id with
  | none => none
  | some system =>
    let neighbor_ids := (List.range 6).filterMap fun dir =>
      (m.findByCoords (system.coords.neighbor dir)).map fun s => s.id
    let sorted := neighbor_ids.insertionSort fun a b => a ≤ b
    if id ∈ m.nodeIds then
      let existing := neighborsOf m.graph id
      let retained := sorted.filter fun n => decide (n ∉ existing)
      let neighbors_to_connect := (shuffle retained).take 3
      if neighbors_to_connect.length < 3 then none
      else neighbors_to_connect.foldlM (fun acc n => acc.add_lane id n LaneType.Major) m
    else none

/-- `StarMap::connect_outer_system`. -/
def StarMap.connect_outer_system (m : StarMap) (id : Nat) (laneRoll : Nat → Nat → Nat) :
    Option StarMap :=
  match m.getSystem id with
  | none => none
  | some system =>
    let neighbor_ids := ((List.range 6).filterMap fun dir =>
      (m.findByCoords (system.coords.neighbor dir)).map fun s => s.id).filter
        fun nid => decide (nid ≠ id)
    if id ∈ m.nodeIds then
      let existing := neighborsOf m.graph id
      let available := neighbor_ids.filter fun n => decide (n ∉ existing)
      if available.isEmpty then some m
      else available.foldlM (fun acc n => acc.add_lane id n (laneOfRoll (laneRoll id n))) m
    else none

/-- `StarMap::connect_inner_system` (same as the outer pass but without the
early return on an empty candidate list, which changes nothing). -/
def StarMap.connect_inner_system (m : StarMap) (id : Nat) (laneRoll : Nat → Nat → Nat) :
    Option StarMap :=
  match m.getSystem id with
  | none => none
  | some system =>
    let neighbor_ids := ((List.range 6).filterMap fun dir =>
      (m.findByCoords (system.coords.neighbor dir)).map fun s => s.id).filter
        fun nid => decide (nid ≠ id)
    if id ∈ m.nodeIds then
      let existing := neighborsOf m.graph id
      let available := neighbor_ids.filter fun n => decide (n ∉ existing)
      available.foldlM (fun acc n => acc.add_lane id n (laneOfRoll (laneRoll id n))) m
    else none

/-- `StarMap::generate_lanes`. -/
def StarMap.generate_lanes (m : StarMap) (o : GenOracle) : Option StarMap :=
  match m.connect_hub o.permHub with
  | none => none
  | some m1 =>
    let player_system_ids := o.permPlayers ((m1.systems.filter fun s =>
        s.player.isSome).map fun s => s.id)
    match player_system_ids.foldlM
        (fun acc id => acc.connect_player_system id (o.shuffle id)) m1 with
    | none => none
    | some m2 =>
      let outer_system_ids := o.permOuter ((m2.systems.filter fun s =>
          decide (s.ring = m2.num_rings ∧ s.player = none)).map fun s => s.id)
      match outer_system_ids.foldlM
          (fun acc id => acc.connect_outer_system id o.laneRoll) m2 with
      | none => none
      | some m3 =>
        let inner_system_ids := o.permInner ((m3.systems.filter fun s =>
            decide (0 < s.ring ∧ s.ring < m3.num_rings ∧ s.player = none)).map fun s => s.id)
        inner_system_ids.foldlM (fun acc id => acc.connect_inner_system id o.laneRoll) m3

/-- `StarMap::new` followed by `populate` followed by `generate_lanes`. -/
def fullGen (pc : Nat) (perm : List Hex → List Hex) (o : GenOracle) : Option StarMap :=
  match (StarMap.new pc).populate perm with
  | none => none
  | some m => m.generate_lanes o

/-! ## is_connected (src/core/src/starmap.rs)

The Vec stack is represented with its top as the list head (`pop` takes
the head, `push` conses), which matches LIFO behaviour.  Newly visited
neighbours are pushed in the neighbour iteration order.  The fuel given
below always outlasts the loop, which ends on an empty stack: every
iteration pops one entry and pushes only freshly visited ids, and at most
one id per edge endpoint (plus the start) can ever be visited. -/

def dfsLoop (g : List JumpLane) : Nat → List Nat → List Nat → List Nat × List Nat
  | 0, visited, stack => (visited, stack)
  | fuel + 1, visited, stack =>
    match stack with
    | [] => (visited, [])
    | current :: rest =>
      let step := (neighborsOf g current).foldl
        (fun (p : List Nat × List Nat) n =>
          if n ∈ p.1 then p else (p.1 ++ [n], n :: p.2))
        (visited, rest)
      dfsLoop g fuel step.1 step.2

/-- `StarMap::is_connected`: none models the unwrap panic when the hub id
is not a key of `system_id_to_node`. -/
def StarMap.is_connected (m : StarMap) : Option Bool :=
  if m.hub_id ∈ m.nodeIds then
    let res := dfsLoop m.graph (2 * (2 * m.graph.length + 1) + 2) [m.hub_id] [m.hub_id]
    some (decide (res.1.length = m.systems.length))
  else none

/-! ## astar (src/core/src/starmap.rs) -/

/-- `BinaryHeap<Reverse<(u32, usize)>>::pop`: remove a maximal element of
the reversed order, i.e. a lexicographically least (f, id) pair.  Tied
entries are identical pairs, so which one leaves the multiset is
immaterial; the model removes the first occurrence. -/
def entryLt (p q : Nat × Nat) : Bool :=
  p.1 < q.1 || (p.1 = q.1 && p.2 < q.2)

def popMinEntry (l : List (Nat × Nat)) : Option ((Nat × Nat) × List (Nat × Nat)) :=
  match l with
  | [] => none
  | x :: xs =>
    let minp := xs.foldl (fun q p => if entryLt p q then p else q) x
    some (minp, l.erase minp)

/-- HashMap get on a Nat-keyed map. -/
def lookupNat (l : List (Nat × Nat)) (k : Nat) : Option Nat :=
  (l.find? fun p => p.1 = k).map fun p => p.2

/-- HashMap insert on a Nat-keyed map. -/
def updNat (l : List (Nat × Nat)) (k v : Nat) : List (Nat × Nat) :=
  if l.any fun p => p.1 = k then l.map fun p => if p.1 = k then (k, v) else p
  else l ++ [(k, v)]

/-- `graph.edges(current)` with the source endpoint normalised to
`current`, as petgraph does for undirected graphs: the opposite endpoint
and the weight of every incident edge, most recently inserted first. -/
def edgesOf (m : StarMap) (id : Nat) : List (Nat × LaneType) :=
  m.graph.reverse.filterMap fun e =>
    if e.source = id then some (e.destination, e.lane_type)
    else if e.destination = id then some (e.source, e.lane_type)
    else none

/-- The predecessor-chain walk of the source (before its final reverse):
follow came_from until a node has no predecessor.  The fuel passed below
exceeds the chain length, which the g-score strict descent bounds. -/
def reconstruct (came : List (Nat × Nat)) : Nat → Nat → List Nat
  | 0, current => [current]
  | fuel + 1, current =>
    match lookupNat came current with
    | none => [current]
    | some prev => current :: reconstruct came fuel prev

/-- The mutable state of the astar loop. -/
structure AStar where
  open_set : List (Nat × Nat)
  came_from : List (Nat × Nat)
  g_score : List (Nat × Nat)
  f_score : List (Nat × Nat)
deriving DecidableEq

/-- One outer iteration of the astar while-loop plus the recursion; outer
none is a panic or fuel exhaustion (both proved unreachable), `some none`
is the "no path" result.  The goal system is looked up once here; the
source looks it up at each relaxation, with the same panic condition.
`g_score[&current]` is read once; no relaxation can change it, since a
relaxation lowers only a strictly smaller entry and every weight is
positive. -/
def astarLoop (m : StarMap) (goal_id : Nat) (fleet : Fleet) :
    Nat → AStar → Option (Option (List System))
  | 0, _ => none
  | fuel + 1, st =>
    match popMinEntry st.open_set with
    | none => some none
    | some (entry, rest) =>
      let current := entry.2
      if current = goal_id then
        match (reconstruct st.came_from st.came_from.length current).reverse.mapM
            (fun id => m.getSystem id) with
        | none => none
        | some path => some (some path)
      else
        match lookupNat st.g_score current, m.getSystem goal_id with
        | some gc, some goalSys =>
          match (edgesOf m current).foldlM (fun (st' : AStar) (en : Nat × LaneType) =>
              if fleet.can_traverse en.2 then
                let tentative := gc + en.2.weight
                if tentative < (lookupNat st'.g_score en.1).getD 4294967295 then
                  match m.getSystem en.1 with
                  | none => none
                  | some nb =>
                    let fval := tentative + nb.coords.distance goalSys.coords
                    some { open_set := st'.open_set ++ [(fval, en.1)]
                           came_from := updNat st'.came_from en.1 current
                           g_score := updNat st'.g_score en.1 tentative
                           f_score := updNat st'.f_score en.1 fval }
                else some st'
              else some st') { st with open_set := rest } with
          | none => none
          | some st2 => astarLoop m goal_id fleet fuel st2
        | _, _ => none

/-- Enough fuel for the loop: each iteration strictly decreases
`open_set.length` plus the sum over all systems of the current g-score
(with `3 * n + 1` for a node without one), a quantity that starts below
this bound; proved in the fuel lemmas below. -/
def astarFuel (m : StarMap) : Nat :=
  m.systems.length * (3 * m.systems.length + 1) + 2

/-- `StarMap::astar`. -/
def StarMap.astar (m : StarMap) (start goal : System) (fleet : Fleet) :
    Option (Option (List System)) :=
  match m.getSystem start.id with
  | none => none
  | some startSys =>
    let h0 := startSys.coords.distance goal.coords
    astarLoop m goal.id fleet (astarFuel m)
      { open_set := [(h0, start.id)], came_from := [],
        g_score := [(start.id, 0)], f_score := [(start.id, h0)] }

/-! ## Derived notions used by the claims -/

/-- The lanes incident to a system, as the repository's own test scans
them (`lane.source == id || lane.destination == id`). -/
def incidentLanes (m : StarMap) (id : Nat) : List JumpLane :=
  m.lanes.filter fun e => e.source = id || e.destination = id

/-- Two lane records connect the same unordered pair. -/
def samePair (e₁ e₂ : JumpLane) : Prop :=
  (e₁.source = e₂.source ∧ e₁.destination = e₂.destination) ∨
  (e₁.source = e₂.destination ∧ e₁.destination = e₂.source)

/-- At most one lane per unordered pair of systems. -/
def PairwiseUniqueLanes (g : List JumpLane) : Prop :=
  g.Pairwise fun e₁ e₂ => ¬ samePair e₁ e₂

/-- An edge between `a` and `b` is recorded in the graph. -/
def Connected (m : StarMap) (a b : Nat) : Prop := containsEdge m.graph a b = true

/-- `a` and `b` are ids of two systems of the map on adjacent hexes. -/
def AdjPair (m : StarMap) (a b : Nat) : Prop :=
  ∃ s ∈ m.systems, ∃ t ∈ m.systems, s.id = a ∧ t.id = b ∧ s.coords.distance t.coords = 1

/-- The lane type stored between two ids, if any. -/
def laneBetween (m : StarMap) (a b : Nat) : Option LaneType :=
  (m.graph.find? fun e =>
    (e.source = a && e.destination = b) || (e.source = b && e.destination = a)).map
    fun e => e.lane_type

/-- A nonempty id sequence whose consecutive pairs are joined by lanes the
fleet can traverse. -/
def IsFleetPath (m : StarMap) (fleet : Fleet) : List Nat → Prop
  | [] => False
  | [a] => ∃ s ∈ m.systems, s.id = a
  | a :: b :: rest =>
    (∃ lt, laneBetween m a b = some lt ∧ fleet.can_traverse lt = true) ∧
      IsFleetPath m fleet (b :: rest)

/-- Total lane weight along an id sequence. -/
def pathCost (m : StarMap) : List Nat → Nat
  | a :: b :: rest => ((laneBetween m a b).map LaneType.weight).getD 0 + pathCost m (b :: rest)
  | _ => 0

/-- A permutation-producing function: a legitimate hash map iteration
order or slice shuffle. -/
def IsPermFn {α : Type} (f : List α → List α) : Prop := ∀ l, List.Perm (f l) l

/-- Every nondeterministic input of generate_lanes is a permutation. -/
def ValidOracle (o : GenOracle) : Prop :=
  IsPermFn o.permHub ∧ IsPermFn o.permPlayers ∧ IsPermFn o.permOuter ∧
    IsPermFn o.permInner ∧ ∀ id, IsPermFn (o.shuffle id)

/-- A concrete oracle: identity iteration orders and shuffles, and a
constant random roll; one realisable behaviour of hash maps and rng. -/
def constOracle (roll : Nat) : GenOracle :=
  ⟨id, id, id, id, fun _ l => l, fun _ _ => roll⟩

/-- The exact system list populateSystems builds on a fresh map of
`player_count = pc`: the hub first, then one system per non-center hex of
the radius-`pc` disk, in enumeration order. -/
def diskSystems (pc : Nat) : List System :=
  System.new (Hex.new 0 0) 0 pc none ::
    ((Hex.within_radius (Hex.new 0 0) (pc : Int)).filter fun h => h ≠ Hex.new 0 0).map
      (fun h => System.new h (h.distance (Hex.new 0 0)) pc none)

/-- Helper for counting `within_radius`: the length of the `r` row at
horizontal offset `i - R` in a disk of radius `R`. -/
def ringRowCount (R i : Nat) : Nat :=
  2 * R + 1 - (if R ≤ i then i - R else R - i)

/-- Everything of a map except its lanes and graph. -/
def sameSkeleton (m m' : StarMap) : Prop :=
  m'.systems = m.systems ∧ m'.nodeIds = m.nodeIds ∧ m'.player_count = m.player_count ∧
    m'.num_rings = m.num_rings ∧ m'.hub_id = m.hub_id

/-- The system bookkeeping every populated map satisfies and lane
generation preserves: one graph node per system, distinct ids, distinct
coordinates, and for every system an id derived from its coordinates, a
ring equal to its distance from the origin, and a position inside the
radius. -/
def WFSystems (m : StarMap) : Prop :=
  m.nodeIds = (m.systems.map fun s => s.id) ∧
  (m.systems.map fun s => s.id).Nodup ∧
  (m.systems.map fun s => s.coords).Nodup ∧
  (∀ s ∈ m.systems, s.id = s.coords.to_id m.num_rings ∧
    s.ring = s.coords.distance (Hex.new 0 0) ∧
    Hex.distance (Hex.new 0 0) s.coords ≤ m.num_rings)

/-- The outer-ring hexes eligible as home systems when player_count is at
most 6: outer-ring systems whose hex has exactly three occupied
neighbours.  Concrete and decidable for each player count. -/
def vertexCand (pc : Nat) : List Hex :=
  ((diskSystems pc).filter fun s => decide (s.ring = pc ∧
    (StarMap.new pc).populateSystems.count_adjacent s.coords = 3)).map fun s => s.coords

/-- The full grid-adjacency edge set of the generated disk (both
orientations), used as a reference graph for connectivity. -/
def Reaches (g : List JumpLane) (a b : Nat) : Prop :=
  Relation.ReflTransGen (fun x y => y ∈ neighborsOf g x) a b

/-- One step of the grid-adjacency relation on system ids: two systems of
the generated disk on hexes at distance one. -/
def AdjStep (pc : Nat) (x y : Nat) : Prop :=
  ∃ s ∈ diskSystems pc, ∃ t ∈ diskSystems pc,
    s.id = x ∧ t.id = y ∧ s.coords.distance t.coords = 1

/-- Reachability through grid-adjacent systems of the disk. -/
def ReachesAdj (pc : Nat) : Nat → Nat → Prop :=
  Relation.ReflTransGen (AdjStep pc)

/-- Process one spanning-certificate entry `(parent index, child index)`
into `diskSystems pc`: record the child's id as reached when the parent's
id is already reached and the two hexes are adjacent. -/
def adjCertStep (l : List System) (reached : List Nat) (p : Nat × Nat) : List Nat :=
  match l[p.1]?, l[p.2]? with
  | some s, some t =>
    if s.id ∈ reached ∧ t.id ∉ reached ∧ s.coords.distance t.coords = 1 then t.id :: reached
    else reached
  | _, _ => reached

/-- The ids a spanning certificate proves reachable from `hub`. -/
def adjCertReached (l : List System) (hub : Nat) (cert : List (Nat × Nat)) : List Nat :=
  cert.foldl (adjCertStep l) [hub]

/-- The concrete geometric facts of one small player count: the disk has
exactly six ring-1 systems, the eligible home vertices are pairwise
non-adjacent, and the grid-adjacency graph reaches every system from the
hub. -/
def SmallPCFacts (pc : Nat) : Prop :=
  ((diskSystems pc).filter fun s => decide (s.ring = 1)).length = 6 ∧
  (∀ x ∈ vertexCand pc, ∀ y ∈ vertexCand pc, x ≠ y → Hex.distance x y ≠ 1) ∧
  ∀ id ∈ (diskSystems pc).map fun s => s.id,
    ReachesAdj pc ((Hex.new 0 0).to_id pc) id

/-! ## Evaluated literals

Spanning certificates for the disk adjacency graph of each small player
count (lists of (parent index, child index) pairs into `diskSystems pc`),
and the tuple-encoded literal value of the populated seven-player map
(proved equal to the `populate` output by `rfl` below).  These exist only
to let concrete facts evaluate cheaply. -/

def certLit2 : List (Nat × Nat) :=
  [(0, 5), (0, 6), (0, 9), (0, 10), (0, 13), (0, 14), (5, 1), (5, 2), (5, 4), (6, 3), (6, 7), (9, 8), (9, 12), (10, 11), (10, 15), (13, 16), (13, 17), (14, 18)]

def certLit3 : List (Nat × Nat) :=
  [(0, 12), (0, 13), (0, 18), (0, 19), (0, 24), (0, 25), (12, 6), (12, 7), (12, 11), (13, 8), (13, 14), (18, 17), (18, 23), (19, 20), (19, 26), (24, 29), (24, 30), (25, 31), (6, 1), (6, 2), (6, 5), (7, 3), (11, 10), (8, 4), (8, 9), (14, 15), (17, 16), (17, 22), (23, 28), (20, 21), (20, 27), (26, 32), (29, 33), (29, 34), (30, 35), (31, 36)]

def certLit4 : List (Nat × Nat) :=
  [(0, 22), (0, 23), (0, 30), (0, 31), (0, 38), (0, 39), (22, 14), (22, 15), (22, 21), (23, 16), (23, 24), (30, 29), (30, 37), (31, 32), (31, 40), (38, 45), (38, 46), (39, 47), (14, 7), (14, 8), (14, 13), (15, 9), (21, 20), (16, 10), (16, 17), (24, 25), (29, 28), (29, 36), (37, 44), (32, 33), (32, 41), (40, 48), (45, 51), (45, 52), (46, 53), (47, 54), (7, 1), (7, 2), (7, 6), (8, 3), (13, 12), (9, 4), (20, 19), (10, 5), (10, 11), (17, 18), (25, 26), (28, 27), (28, 35), (36, 43), (44, 50), (33, 34), (33, 42), (41, 49), (48, 55), (51, 56), (51, 57), (52, 58), (53, 59), (54, 60)]

def certLit5 : List (Nat × Nat) :=
  [(0, 35), (0, 36), (0, 45), (0, 46), (0, 55), (0, 56), (35, 25), (35, 26), (35, 34), (36, 27), (36, 37), (45, 44), (45, 54), (46, 47), (46, 57), (55, 64), (55, 65), (56, 66), (25, 16), (25, 17), (25, 24), (26, 18), (34, 33), (27, 19), (27, 28), (37, 38), (44, 43), (44, 53), (54, 63), (47, 48), (47, 58), (57, 67), (64, 72), (64, 73), (65, 74), (66, 75), (16, 8), (16, 9), (16, 15), (17, 10), (24, 23), (18, 11), (33, 32), (19, 12), (19, 20), (28, 29), (38, 39), (43, 42), (43, 52), (53, 62), (63, 71), (48, 49), (48, 59), (58, 68), (67, 76), (72, 79), (72, 80), (73, 81), (74, 82), (75, 83), (8, 1), (8, 2), (8, 7), (9, 3), (15, 14), (10, 4), (23, 22), (11, 5), (32, 31), (12, 6), (12, 13), (20, 21), (29, 30), (39, 40), (42, 41), (42, 51), (52, 61), (62, 70), (71, 78), (49, 50), (49, 60), (59, 69), (68, 77), (76, 84), (79, 85), (79, 86), (80, 87), (81, 88), (82, 89), (83, 90)]

def certLit6 : List (Nat × Nat) :=
  [(0, 51), (0, 52), (0, 63), (0, 64), (0, 75), (0, 76), (51, 39), (51, 40), (51, 50), (52, 41), (52, 53), (63, 62), (63, 74), (64, 65), (64, 77), (75, 86), (75, 87), (76, 88), (39, 28), (39, 29), (39, 38), (40, 30), (50, 49), (41, 31), (41, 42), (53, 54), (62, 61), (62, 73), (74, 85), (65, 66), (65, 78), (77, 89), (86, 96), (86, 97), (87, 98), (88, 99), (28, 18), (28, 19), (28, 27), (29, 20), (38, 37), (30, 21), (49, 48), (31, 22), (31, 32), (42, 43), (54, 55), (61, 60), (61, 72), (73, 84), (85, 95), (66, 67), (66, 79), (78, 90), (89, 100), (96, 105), (96, 106), (97, 107), (98, 108), (99, 109), (18, 9), (18, 10), (18, 17), (19, 11), (27, 26), (20, 12), (37, 36), (21, 13), (48, 47), (22, 14), (22, 23), (32, 33), (43, 44), (55, 56), (60, 59), (60, 71), (72, 83), (84, 94), (95, 104), (67, 68), (67, 80), (79, 91), (90, 101), (100, 110), (105, 113), (105, 114), (106, 115), (107, 116), (108, 117), (109, 118), (9, 1), (9, 2), (9, 8), (10, 3), (17, 16), (11, 4), (26, 25), (12, 5), (36, 35), (13, 6), (47, 46), (14, 7), (14, 15), (23, 24), (33, 34), (44, 45), (56, 57), (59, 58), (59, 70), (71, 82), (83, 93), (94, 103), (104, 112), (68, 69), (68, 81), (80, 92), (91, 102), (101, 111), (110, 119), (113, 120), (113, 121), (114, 122), (115, 123), (116, 124), (117, 125), (118, 126)]

def m7SysTuples : List (Nat × Nat × Nat × Nat × Nat) :=
  [(112, 7, 7, 0, 0), (7, 0, 7, 7, 0), (8, 0, 8, 7, 0), (9, 0, 9, 7, 0), (10, 0, 10, 7, 0), (11, 0, 11, 7, 0), (12, 0, 12, 7, 7), (13, 0, 13, 7, 0), (14, 0, 14, 7, 0), (21, 1, 6, 7, 1), (22, 1, 7, 6, 0), (23, 1, 8, 6, 0), (24, 1, 9, 6, 0), (25, 1, 10, 6, 0), (26, 1, 11, 6, 0), (27, 1, 12, 6, 0), (28, 1, 13, 6, 0), (29, 1, 14, 7, 0), (35, 2, 5, 7, 0), (36, 2, 6, 6, 0), (37, 2, 7, 5, 0), (38, 2, 8, 5, 0), (39, 2, 9, 5, 0), (40, 2, 10, 5, 0), (41, 2, 11, 5, 0), (42, 2, 12, 5, 0), (43, 2, 13, 6, 0), (44, 2, 14, 7, 0), (49, 3, 4, 7, 0), (50, 3, 5, 6, 0), (51, 3, 6, 5, 0), (52, 3, 7, 4, 0), (53, 3, 8, 4, 0), (54, 3, 9, 4, 0), (55, 3, 10, 4, 0), (56, 3, 11, 4, 0), (57, 3, 12, 5, 0), (58, 3, 13, 6, 0), (59, 3, 14, 7, 0), (63, 4, 3, 7, 0), (64, 4, 4, 6, 0), (65, 4, 5, 5, 0), (66, 4, 6, 4, 0), (67, 4, 7, 3, 0), (68, 4, 8, 3, 0), (69, 4, 9, 3, 0), (70, 4, 10, 3, 0), (71, 4, 11, 4, 0), (72, 4, 12, 5, 0), (73, 4, 13, 6, 0), (74, 4, 14, 7, 6), (77, 5, 2, 7, 0), (78, 5, 3, 6, 0), (79, 5, 4, 5, 0), (80, 5, 5, 4, 0), (81, 5, 6, 3, 0), (82, 5, 7, 2, 0), (83, 5, 8, 2, 0), (84, 5, 9, 2, 0), (85, 5, 10, 3, 0), (86, 5, 11, 4, 0), (87, 5, 12, 5, 0), (88, 5, 13, 6, 0), (89, 5, 14, 7, 0), (91, 6, 1, 7, 0), (92, 6, 2, 6, 0), (93, 6, 3, 5, 0), (94, 6, 4, 4, 0), (95, 6, 5, 3, 0), (96, 6, 6, 2, 0), (97, 6, 7, 1, 0), (98, 6, 8, 1, 0), (99, 6, 9, 2, 0), (100, 6, 10, 3, 0), (101, 6, 11, 4, 0), (102, 6, 12, 5, 0), (103, 6, 13, 6, 0), (104, 6, 14, 7, 0), (105, 7, 0, 7, 2), (106, 7, 1, 6, 0), (107, 7, 2, 5, 0), (108, 7, 3, 4, 0), (109, 7, 4, 3, 0), (110, 7, 5, 2, 0), (111, 7, 6, 1, 0), (113, 7, 8, 1, 0), (114, 7, 9, 2, 0), (115, 7, 10, 3, 0), (116, 7, 11, 4, 0), (117, 7, 12, 5, 0), (118, 7, 13, 6, 0), (119, 7, 14, 7, 0), (120, 8, 0, 7, 0), (121, 8, 1, 6, 0), (122, 8, 2, 5, 0), (123, 8, 3, 4, 0), (124, 8, 4, 3, 0), (125, 8, 5, 2, 0), (126, 8, 6, 1, 0), (127, 8, 7, 1, 0), (128, 8, 8, 2, 0), (129, 8, 9, 3, 0), (130, 8, 10, 4, 0), (131, 8, 11, 5, 0), (132, 8, 12, 6, 0), (133, 8, 13, 7, 0), (135, 9, 0, 7, 0), (136, 9, 1, 6, 0), (137, 9, 2, 5, 0), (138, 9, 3, 4, 0), (139, 9, 4, 3, 0), (140, 9, 5, 2, 0), (141, 9, 6, 2, 0), (142, 9, 7, 2, 0), (143, 9, 8, 3, 0), (144, 9, 9, 4, 0), (145, 9, 10, 5, 0), (146, 9, 11, 6, 0), (147, 9, 12, 7, 0), (150, 10, 0, 7, 0), (151, 10, 1, 6, 0), (152, 10, 2, 5, 0), (153, 10, 3, 4, 0), (154, 10, 4, 3, 0), (155, 10, 5, 3, 0), (156, 10, 6, 3, 0), (157, 10, 7, 3, 0), (158, 10, 8, 4, 0), (159, 10, 9, 5, 0), (160, 10, 10, 6, 0), (161, 10, 11, 7, 5), (165, 11, 0, 7, 0), (166, 11, 1, 6, 0), (167, 11, 2, 5, 0), (168, 11, 3, 4, 0), (169, 11, 4, 4, 0), (170, 11, 5, 4, 0), (171, 11, 6, 4, 0), (172, 11, 7, 4, 0), (173, 11, 8, 5, 0), (174, 11, 9, 6, 0), (175, 11, 10, 7, 0), (180, 12, 0, 7, 0), (181, 12, 1, 6, 0), (182, 12, 2, 5, 0), (183, 12, 3, 5, 0), (184, 12, 4, 5, 0), (185, 12, 5, 5, 0), (186, 12, 6, 5, 0), (187, 12, 7, 5, 0), (188, 12, 8, 6, 0), (189, 12, 9, 7, 0), (195, 13, 0, 7, 3), (196, 13, 1, 6, 0), (197, 13, 2, 6, 0), (198, 13, 3, 6, 0), (199, 13, 4, 6, 0), (200, 13, 5, 6, 0), (201, 13, 6, 6, 0), (202, 13, 7, 6, 0), (203, 13, 8, 7, 0), (210, 14, 0, 7, 0), (211, 14, 1, 7, 0), (212, 14, 2, 7, 0), (213, 14, 3, 7, 0), (214, 14, 4, 7, 0), (215, 14, 5, 7, 4), (216, 14, 6, 7, 0), (217, 14, 7, 7, 0)]

def m7NodeIds : List Nat :=
  [112, 7, 8, 9, 10, 11, 12, 13, 14, 21, 22, 23, 24, 25, 26, 27, 28, 29, 35, 36, 37, 38, 39, 40, 41, 42, 43, 44, 49, 50, 51, 52, 53, 54, 55, 56, 57, 58, 59, 63, 64, 65, 66, 67, 68, 69, 70, 71, 72, 73, 74, 77, 78, 79, 80, 81, 82, 83, 84, 85, 86, 87, 88, 89, 91, 92, 93, 94, 95, 96, 97, 98, 99, 100, 101, 102, 103, 104, 105, 106, 107, 108, 109, 110, 111, 113, 114, 115, 116, 117, 118, 119, 120, 121, 122, 123, 124, 125, 126, 127, 128, 129, 130, 131, 132, 133, 135, 136, 137, 138, 139, 140, 141, 142, 143, 144, 145, 146, 147, 150, 151, 152, 153, 154, 155, 156, 157, 158, 159, 160, 161, 165, 166, 167, 168, 169, 170, 171, 172, 173, 174, 175, 180, 181, 182, 183, 184, 185, 186, 187, 188, 189, 195, 196, 197, 198, 199, 200, 201, 202, 203, 210, 211, 212, 213, 214, 215, 216, 217]

/-- Decode a system tuple (id, q + off, r + off, ring, player + 1 or 0). -/
def decodeSys (off : Nat) (l : List (Nat × Nat × Nat × Nat × Nat)) : List System :=
  l.map fun t => ⟨t.1, ⟨(t.2.1 : Int) - (off : Int), (t.2.2.1 : Int) - (off : Int)⟩,
    t.2.2.2.1, if t.2.2.2.2 = 0 then none else some (t.2.2.2.2 - 1)⟩

def m7Lit : StarMap :=
  ⟨decodeSys 7 m7SysTuples, [], [], m7NodeIds, 7, 7, 112⟩

/-! ## Theorems -/

/-- C9: a fleet always traverses Major and Minor lanes; it traverses a
Restricted lane exactly when every member ship can individually cross one,
where a Military ship can iff it is not crippled and a Spacelift ship
never can; hence an all-uncrippled-Military fleet traverses every lane
type, and a fleet with a Spacelift ship or a crippled Military ship cannot
traverse a Restricted lane. -/
theorem C9_fleet_traversal (f : Fleet) :
    f.can_traverse LaneType.Major = true ∧
    f.can_traverse LaneType.Minor = true ∧
    (f.can_traverse LaneType.Restricted = true ↔
      ∀ s ∈ f.ships, s.can_cross_restricted_lane = true) ∧
    (∀ s : Ship, s.ship_type = ShipType.Military →
      (s.can_cross_restricted_lane = true ↔ s.is_crippled = false)) ∧
    (∀ s : Ship, s.ship_type = ShipType.Spacelift →
      s.can_cross_restricted_lane = false) ∧
    ((∀ s ∈ f.ships, s.ship_type = ShipType.Military ∧ s.is_crippled = false) →
      ∀ lt : LaneType, f.can_traverse lt = true) ∧
    ((∃ s ∈ f.ships, s.ship_type = ShipType.Spacelift ∨
        (s.ship_type = ShipType.Military ∧ s.is_crippled = true)) →
      f.can_traverse LaneType.Restricted = false) := by
  refine ⟨rfl, rfl, ?_, ?_, ?_, ?_, ?_⟩
  · simp [Fleet.can_traverse, List.all_eq_true]
  · intro s hs
    cases s with
    | mk ty cr => cases cr <;> simp_all [Ship.can_cross_restricted_lane]
  · intro s hs
    cases s with
    | mk ty cr => simp_all [Ship.can_cross_restricted_lane]
  · intro h lt
    cases lt <;> simp [Fleet.can_traverse, List.all_eq_true]
    intro s hs
    have := h s hs
    simp [Ship.can_cross_restricted_lane, this.1, this.2]
  · rintro ⟨s, hs, hbad⟩
    simp only [Fleet.can_traverse]
    rw [List.all_eq_false]
    refine ⟨s, hs, ?_⟩
    rcases hbad with h | ⟨h1, h2⟩
    · simp [Ship.can_cross_restricted_lane, h]
    · simp [Ship.can_cross_restricted_lane, h1, h2]

theorem C9_fleet_traversal_witness :
    Fleet.can_traverse ⟨[Ship.new ShipType.Military false]⟩ LaneType.Restricted = true ∧
    Fleet.can_traverse ⟨[Ship.new ShipType.Spacelift false]⟩ LaneType.Restricted = false := by
  constructor
  · exact (C9_fleet_traversal ⟨[Ship.new ShipType.Military false]⟩).2.2.2.2.2.1
      (by decide) LaneType.Restricted
  · exact (C9_fleet_traversal ⟨[Ship.new ShipType.Spacelift false]⟩).2.2.2.2.2.2
      ⟨Ship.new ShipType.Spacelift false, by decide, by decide⟩

/-- C10: on a freshly constructed map (populate not yet run) is_connected
panics: hub_id is 0 and the lookup of the hub in the empty
system_id_to_node map unwraps a missing entry. -/
theorem C10_is_connected_panics_on_new (pc : Nat) :
    (StarMap.new pc).hub_id = 0 ∧
    (StarMap.new pc).nodeIds = [] ∧
    (StarMap.new pc).is_connected = none := by
  refine ⟨rfl, rfl, ?_⟩
  simp [StarMap.is_connected, StarMap.new]

/-! ### add_lane basics -/

theorem containsEdge_iff {g : List JumpLane} {a b : Nat} :
    containsEdge g a b = true ↔
      ∃ e ∈ g, (e.source = a ∧ e.destination = b) ∨ (e.source = b ∧ e.destination = a) := by
  simp [containsEdge, List.any_eq_true]

theorem containsEdge_append {g ext : List JumpLane} {a b : Nat} :
    containsEdge (g ++ ext) a b = (containsEdge g a b || containsEdge ext a b) := by
  simp [containsEdge, List.any_append]

theorem containsEdge_mono {g ext : List JumpLane} {a b : Nat}
    (h : containsEdge g a b = true) : containsEdge (g ++ ext) a b = true := by
  rw [containsEdge_append, h, Bool.true_or]

theorem containsEdge_comm {g : List JumpLane} {a b : Nat} :
    containsEdge g a b = containsEdge g b a := by
  simp only [containsEdge]
  congr 1
  funext e
  by_cases h1 : e.source = a <;> by_cases h2 : e.destination = b <;>
    by_cases h3 : e.source = b <;> by_cases h4 : e.destination = a <;>
    simp [h1, h2, h3, h4]

/-- The complete behaviour of add_lane on valid endpoints: the result map
differs only by a common suffix of graph and lanes, that suffix is the
single requested record or nothing, nothing when the pair was already
connected, and afterwards the pair is connected. -/
theorem add_lane_spec {m m' : StarMap} {s d : Nat} {lt : LaneType}
    (h : m.add_lane s d lt = some m') :
    sameSkeleton m m' ∧
    ∃ ext, m'.graph = m.graph ++ ext ∧ m'.lanes = m.lanes ++ ext ∧
      (∀ e ∈ ext, e = ⟨s, d, lt⟩) ∧
      (containsEdge m.graph s d = true → ext = []) ∧
      (containsEdge m.graph s d = false → ext = [⟨s, d, lt⟩]) ∧
      containsEdge m'.graph s d = true := by
  unfold StarMap.add_lane at h
  by_cases hs : s ∈ m.nodeIds
  · by_cases hd : d ∈ m.nodeIds
    · rw [if_pos hs, if_pos hd] at h
      by_cases hc : containsEdge m.graph s d = true
      · rw [if_pos hc] at h
        cases h
        exact ⟨⟨rfl, rfl, rfl, rfl, rfl⟩, [], by simp, by simp, by simp,
          fun hcf => by simp_all, by simp [hc]⟩
      · rw [if_neg hc] at h
        cases h
        refine ⟨⟨rfl, rfl, rfl, rfl, rfl⟩, [⟨s, d, lt⟩], rfl, rfl, by simp, ?_, by simp, ?_⟩
        · intro h1; exact absurd h1 hc
        · rw [containsEdge_append, Bool.or_eq_true]
          right
          simp [containsEdge]
    · rw [if_pos hs, if_neg hd] at h; cases h
  · rw [if_neg hs] at h; cases h

theorem add_lane_none_iff {m : StarMap} {s d : Nat} {lt : LaneType} :
    m.add_lane s d lt = none ↔ (s ∉ m.nodeIds ∨ d ∉ m.nodeIds) := by
  unfold StarMap.add_lane
  by_cases hs : s ∈ m.nodeIds <;> by_cases hd : d ∈ m.nodeIds <;>
    simp [hs, hd] <;> by_cases hc : containsEdge m.graph s d = true <;> simp [hc]

theorem add_lane_connects {m m' : StarMap} {s d : Nat} {lt : LaneType}
    (h : m.add_lane s d lt = some m') : Connected m' s d := by
  exact (add_lane_spec h).2.choose_spec.2.2.2.2.2

theorem Connected_mono {m m' : StarMap} {a b : Nat} (hsub : ∃ ext, m'.graph = m.graph ++ ext)
    (h : Connected m a b) : Connected m' a b := by
  obtain ⟨ext, hext⟩ := hsub
  unfold Connected at h ⊢
  rw [hext]
  exact containsEdge_mono h

/-! ### C6: to_id is injective on the radius and lands in [0, (2R+1)^2) -/

theorem mem_radiusRow {center x : Hex} {radius q : Int} :
    x ∈ Hex.radiusRow center radius q ↔
      ∃ dr : Int, x.q = center.q + q ∧ x.r = center.r + dr ∧
        max (-radius) (-q - radius) ≤ dr ∧ dr ≤ min radius (-q + radius) := by
  unfold Hex.radiusRow
  rw [List.mem_map]
  constructor
  · rintro ⟨j, hj, rfl⟩
    rw [List.mem_range] at hj
    exact ⟨max (-radius) (-q - radius) + j, rfl, rfl, by omega, by omega⟩
  · rintro ⟨dr, hxq, hxr, h3, h4⟩
    refine ⟨(dr - max (-radius) (-q - radius)).toNat, ?_, ?_⟩
    · rw [List.mem_range]; omega
    · cases x with
      | mk xq xr =>
        simp only [Hex.new, Hex.mk.injEq] at hxq hxr ⊢
        constructor <;> omega

theorem mem_within_radius_aux {c x : Hex} {R : Int} :
    x ∈ Hex.within_radius c R ↔
      ∃ dq dr : Int, x.q = c.q + dq ∧ x.r = c.r + dr ∧
        -R ≤ dq ∧ dq ≤ R ∧ max (-R) (-dq - R) ≤ dr ∧ dr ≤ min R (-dq + R) := by
  unfold Hex.within_radius
  rw [List.mem_flatMap]
  constructor
  · rintro ⟨i, hi, hrow⟩
    rw [List.mem_range] at hi
    obtain ⟨dr, hxq, hxr, h3, h4⟩ := mem_radiusRow.mp hrow
    exact ⟨-R + i, dr, hxq, hxr, by omega, by omega, h3, h4⟩
  · rintro ⟨dq, dr, hxq, hxr, h1, h2, h3, h4⟩
    refine ⟨(dq + R).toNat, ?_, ?_⟩
    · rw [List.mem_range]; omega
    · rw [mem_radiusRow]
      exact ⟨dr, by omega, hxr, by omega, by omega⟩

theorem mem_within_radius {c a : Hex} {R : Nat} :
    a ∈ Hex.within_radius c (R : Int) ↔ Hex.distance c a ≤ R := by
  rw [mem_within_radius_aux]
  unfold Hex.distance
  constructor
  · rintro ⟨dq, dr, hq, hr, h1, h2, h3, h4⟩
    omega
  · intro h
    exact ⟨a.q - c.q, a.r - c.r, by omega, by omega, by omega, by omega, by omega, by omega⟩

theorem nodup_radiusRow (center : Hex) (radius q : Int) :
    (Hex.radiusRow center radius q).Nodup := by
  unfold Hex.radiusRow
  refine List.Nodup.map ?_ (List.nodup_range _)
  intro j1 j2 hj
  simp only [Hex.new, Hex.mk.injEq] at hj
  omega

theorem nodup_within_radius (c : Hex) (R : Int) : (Hex.within_radius c R).Nodup := by
  unfold Hex.within_radius
  rw [List.nodup_flatMap]
  refine ⟨fun i _ => nodup_radiusRow c R _, ?_⟩
  have hp := List.pairwise_lt_range (2 * R + 1).toNat
  refine hp.imp ?_
  intro i1 i2 hlt x hx1 hx2
  obtain ⟨d1, hq1, -⟩ := mem_radiusRow.mp hx1
  obtain ⟨d2, hq2, -⟩ := mem_radiusRow.mp hx2
  omega

theorem sum_map_range_eq (g : Nat → Nat) (n : Nat) :
    ((List.range n).map g).sum = ∑ i ∈ Finset.range n, g i := by
  induction n with
  | zero => simp
  | succ k ih =>
    rw [List.range_succ, List.map_append, List.sum_append, Finset.sum_range_succ, ih]
    simp

theorem ringRowCount_shift (k i : Nat) (hik : i ≤ 2 * k) :
    ringRowCount (k + 1) (i + 1) = ringRowCount k i + 2 := by
  unfold ringRowCount
  split
  · split <;> omega
  · split <;> omega

theorem ringRowCount_zero (k : Nat) : ringRowCount (k + 1) 0 = k + 2 := by
  unfold ringRowCount
  split <;> omega

theorem sum_hex_ring (R : Nat) :
    ∑ i ∈ Finset.range (2 * R + 1), ringRowCount R i = 3 * R ^ 2 + 3 * R + 1 := by
  induction R with
  | zero => simp [ringRowCount]
  | succ k ih =>
    have h1 : 2 * (k + 1) + 1 = (2 * k + 1 + 1) + 1 := by ring
    rw [h1, Finset.sum_range_succ, Finset.sum_range_succ']
    have h2 : ∀ i ∈ Finset.range (2 * k + 1),
        ringRowCount (k + 1) (i + 1) = ringRowCount k i + 2 := by
      intro i hi
      simp only [Finset.mem_range] at hi
      exact ringRowCount_shift k i (by omega)
    rw [Finset.sum_congr rfl h2, Finset.sum_add_distrib, ringRowCount_zero, ih]
    have hlast : ringRowCount (k + 1) (2 * k + 1 + 1) = k + 2 := by
      unfold ringRowCount; split <;> omega
    rw [hlast]
    simp only [Finset.sum_const, Finset.card_range, smul_eq_mul]
    have : 3 * (k + 1) ^ 2 + 3 * (k + 1) + 1
        = (3 * k ^ 2 + 3 * k + 1 + (2 * k + 1) * 2 + (k + 2)) + (k + 2) := by ring
    omega

theorem length_within_radius (c : Hex) (R : Nat) :
    (Hex.within_radius c (R : Int)).length = 3 * R ^ 2 + 3 * R + 1 := by
  unfold Hex.within_radius
  rw [List.length_flatMap]
  have hn : (2 * (R : Int) + 1).toNat = 2 * R + 1 := by omega
  rw [hn, sum_map_range_eq]
  rw [Finset.sum_congr rfl (g := fun i => ringRowCount R i) ?_]
  · exact sum_hex_ring R
  · intro i hi
    simp only [Finset.mem_range] at hi
    simp only [Function.comp, Hex.radiusRow, List.length_map, List.length_range, ringRowCount]
    split
    · omega
    · omega

theorem countP_ring_within_radius (c : Hex) (R : Nat) (hR : 1 ≤ R) :
    ((Hex.within_radius c (R : Int)).countP fun h => decide (Hex.distance c h = R)) = 6 * R := by
  have hsplit := List.length_eq_countP_add_countP
    (fun h => decide (Hex.distance c h = R)) (Hex.within_radius c (R : Int))
  have hfil : (List.countP (fun a => !decide (Hex.distance c a = R))
      (Hex.within_radius c (R : Int)))
        = ((Hex.within_radius c (R : Int)).filter
            fun a => !decide (Hex.distance c a = R)).length :=
    List.countP_eq_length_filter _ _
  have hnodup1 : ((Hex.within_radius c (R : Int)).filter
      fun a => !decide (Hex.distance c a = R)).Nodup :=
    (nodup_within_radius c (R : Int)).filter _
  have hnodup2 := nodup_within_radius c ((R - 1 : Nat) : Int)
  have hmemeq : ∀ x, x ∈ ((Hex.within_radius c (R : Int)).filter
      fun a => !decide (Hex.distance c a = R))
        ↔ x ∈ Hex.within_radius c ((R - 1 : Nat) : Int) := by
    intro x
    rw [List.mem_filter, mem_within_radius, mem_within_radius]
    simp only [Bool.not_eq_true', decide_eq_false_iff_not]
    omega
  have hlenfil : ((Hex.within_radius c (R : Int)).filter
      fun a => !decide (Hex.distance c a = R)).length
        = (Hex.within_radius c ((R - 1 : Nat) : Int)).length := by
    rw [← List.toFinset_card_of_nodup hnodup1, ← List.toFinset_card_of_nodup hnodup2]
    congr 1
    ext x
    simp only [List.mem_toFinset]
    exact hmemeq x
  have h1 := length_within_radius c R
  have h2 := length_within_radius c (R - 1)
  have hx : (fun a => decide ¬(fun h => decide (Hex.distance c h = R)) a = true)
      = (fun a => !decide (Hex.distance c a = R)) := by
    funext a
    by_cases h : Hex.distance c a = R <;> simp [h]
  rw [hx, hfil, hlenfil, h2, h1] at hsplit
  have hq : 3 * (R - 1) ^ 2 + 3 * (R - 1) + 1 + 6 * R = 3 * R ^ 2 + 3 * R + 1 := by
    obtain ⟨S, rfl⟩ := Nat.exists_eq_add_of_le hR
    have h0 : 1 + S - 1 = S := by omega
    rw [h0]
    ring
  omega

/-- C7: for every radius and center, within_radius yields exactly
3R^2+3R+1 hexes, each at distance at most R from the center, and for
R at least 1 exactly 6R of them at distance exactly R. -/
theorem C7_within_radius_counts (c : Hex) (R : Nat) :
    (Hex.within_radius c (R : Int)).length = 3 * R ^ 2 + 3 * R + 1 ∧
    (∀ h ∈ Hex.within_radius c (R : Int), Hex.distance c h ≤ R) ∧
    (1 ≤ R →
      ((Hex.within_radius c (R : Int)).countP fun h => decide (Hex.distance c h = R)) = 6 * R) := by
  exact ⟨length_within_radius c R, fun h hm => mem_within_radius.mp hm,
    fun hR => countP_ring_within_radius c R hR⟩

theorem C7_within_radius_counts_witness :
    (Hex.within_radius (Hex.new 0 0) ((2 : Nat) : Int)).length = 19 ∧
    ((Hex.within_radius (Hex.new 0 0) ((2 : Nat) : Int)).countP
      fun h => decide (Hex.distance (Hex.new 0 0) h = 2)) = 12 := by
  have h := C7_within_radius_counts (Hex.new 0 0) 2
  exact ⟨h.1, h.2.2 (by omega)⟩

/-! ### populate: structure of the generated system set -/

theorem diskSystems_coords_complete (pc : Nat) :
    ∀ h : Hex, Hex.distance (Hex.new 0 0) h ≤ pc → ∃ s ∈ diskSystems pc, s.coords = h := by
  intro h hd
  by_cases hc : h = Hex.new 0 0
  · subst hc
    exact ⟨System.new (Hex.new 0 0) 0 pc none, List.mem_cons_self _ _, rfl⟩
  · refine ⟨System.new h (h.distance (Hex.new 0 0)) pc none, ?_, rfl⟩
    unfold diskSystems
    apply List.mem_cons_of_mem
    apply List.mem_map_of_mem
    rw [List.mem_filter]
    exact ⟨mem_within_radius.mpr hd, by simp [hc]⟩

/-- Membership from an optional index lookup. -/
theorem mem_of_getElem_some {α : Type} {l : List α} {i : Nat} {a : α}
    (h : l[i]? = some a) : a ∈ l := by
  rcases List.getElem?_eq_some.mp h with ⟨hlt, he⟩
  rw [← he]
  exact List.getElem_mem hlt

/-- One certificate entry only adds ids reachable through grid-adjacent
systems. -/
theorem adjCertStep_sound {pc hub : Nat} {reached : List Nat} {p : Nat × Nat}
    (h : ∀ x ∈ reached, ReachesAdj pc hub x) :
    ∀ x ∈ adjCertStep (diskSystems pc) reached p, ReachesAdj pc hub x := by
  intro x hx
  unfold adjCertStep at hx
  rcases hq : (diskSystems pc)[p.1]? with _ | s <;> rw [hq] at hx <;>
    [skip; rcases hr : (diskSystems pc)[p.2]? with _ | t <;> rw [hr] at hx] <;>
    dsimp only at hx
  · exact h x hx
  · exact h x hx
  · split at hx
    · rename_i hc
      rcases List.mem_cons.mp hx with rfl | hx2
      · refine Relation.ReflTransGen.tail (h s.id hc.1) ?_
        exact ⟨s, mem_of_getElem_some hq, t, mem_of_getElem_some hr, rfl, rfl, hc.2.2⟩
      · exact h x hx2
    · exact h x hx

/-- Everything a spanning certificate marks reached is reachable from the
hub through grid-adjacent systems. -/
theorem adjCertReached_sound (pc hub : Nat) (cert : List (Nat × Nat)) :
    ∀ x ∈ adjCertReached (diskSystems pc) hub cert, ReachesAdj pc hub x := by
  suffices h : ∀ (cert : List (Nat × Nat)) (reached : List Nat),
      (∀ x ∈ reached, ReachesAdj pc hub x) →
      ∀ x ∈ cert.foldl (adjCertStep (diskSystems pc)) reached, ReachesAdj pc hub x by
    refine fun x hx => h cert [hub] ?_ x hx
    intro x hx
    rw [List.mem_singleton.mp hx]
    exact Relation.ReflTransGen.refl
  intro cert
  induction cert with
  | nil => exact fun reached h x hx => h x hx
  | cons p rest ih => exact fun reached h x hx => ih _ (adjCertStep_sound h) x hx

-- SLOW_BEGIN
set_option maxRecDepth 40000 in
set_option maxHeartbeats 4000000 in
theorem smallPCFacts_2 : SmallPCFacts 2 := by
  refine ⟨by decide, by decide, ?_⟩
  have hall : ∀ id ∈ (diskSystems 2).map fun s => s.id,
      id ∈ adjCertReached (diskSystems 2) ((Hex.new 0 0).to_id 2) certLit2 := by decide
  exact fun id hid => adjCertReached_sound 2 _ certLit2 id (hall id hid)

set_option maxRecDepth 40000 in
set_option maxHeartbeats 4000000 in
theorem smallPCFacts_3 : SmallPCFacts 3 := by
  refine ⟨by decide, by decide, ?_⟩
  have hall : ∀ id ∈ (diskSystems 3).map fun s => s.id,
      id ∈ adjCertReached (diskSystems 3) ((Hex.new 0 0).to_id 3) certLit3 := by decide
  exact fun id hid => adjCertReached_sound 3 _ certLit3 id (hall id hid)

set_option maxRecDepth 40000 in
set_option maxHeartbeats 4000000 in
theorem smallPCFacts_4 : SmallPCFacts 4 := by
  refine ⟨by decide, by decide, ?_⟩
  have hall : ∀ id ∈ (diskSystems 4).map fun s => s.id,
      id ∈ adjCertReached (diskSystems 4) ((Hex.new 0 0).to_id 4) certLit4 := by decide
  exact fun id hid => adjCertReached_sound 4 _ certLit4 id (hall id hid)

set_option maxRecDepth 40000 in
set_option maxHeartbeats 4000000 in
theorem smallPCFacts_5 : SmallPCFacts 5 := by
  refine ⟨by decide, by decide, ?_⟩
  have hall : ∀ id ∈ (diskSystems 5).map fun s => s.id,
      id ∈ adjCertReached (diskSystems 5) ((Hex.new 0 0).to_id 5) certLit5 := by decide
  exact fun id hid => adjCertReached_sound 5 _ certLit5 id (hall id hid)

set_option maxRecDepth 40000 in
set_option maxHeartbeats 4000000 in
theorem smallPCFacts_6 : SmallPCFacts 6 := by
  refine ⟨by decide, by decide, ?_⟩
  have hall : ∀ id ∈ (diskSystems 6).map fun s => s.id,
      id ∈ adjCertReached (diskSystems 6) ((Hex.new 0 0).to_id 6) certLit6 := by decide
  exact fun id hid => adjCertReached_sound 6 _ certLit6 id (hall id hid)
-- SLOW_END
